import Mathlib

/-!
Shallow embedding of the Home Assistant local-auth-provider configuration
command handlers (`homeassistant/components/config/auth_provider_homeassistant.py`)
and their firebase password-sync side channel.

Each websocket handler is modelled as a pure function from its inputs and an
explicit environment (the external collaborators: user/credential store, local
auth provider, HTTP transport) to an outcome (the reply sent on the connection,
or a raised exception) paired with the ordered list of externally visible
effects (store mutations, the sync HTTP post, log lines) it performs.
-/

namespace AuthProviderHA

/-- A credential record as seen by the handlers: its auth provider type and,
for the local provider, the `username` field of its data dict. -/
structure Credential where
  auth_provider_type : String
  username : String
  deriving Repr, DecidableEq

/-- A user record: owner/admin flags, the system-generated flag, and the
ordered list of attached credentials. -/
structure User where
  is_owner : Bool
  is_admin : Bool
  system_generated : Bool
  credentials : List Credential
  deriving Repr, DecidableEq

/-- Result of the `aiohttp` POST performed by the sync side channel: either a
completed response with some HTTP status code, or a transport-level error
(raised as an exception by the HTTP client). -/
inductive HttpResult where
  | status (code : Nat)
  | transportError
  deriving Repr, DecidableEq

/-- The JSON body posted to the sync endpoint.  The structure has exactly the
three fields built by `sync_password_with_firebase`. -/
structure SyncPayload where
  email : String
  currentPassword : String
  newPassword : String
  deriving Repr, DecidableEq

/-- Externally visible effects of one handler invocation, in program order. -/
inductive Event where
  | addAuth (username password : String)
  | removeAuth (username : String)
  | getOrCreateCredentials (username : String)
  | linkUser (username : String)
  | removeCredentials (username : String)
  | changePassword (username password : String)
  | changeUsername (oldUsername newUsername : String)
  | syncPost (url : String) (payload : SyncPayload)
  | log (message : String)
  deriving Repr, DecidableEq

/-- What the handler does at the end of its run: send a success result, send a
structured error, raise `Unauthorized`, or let an unhandled exception escape. -/
inductive Outcome where
  | result
  | error (code message : String)
  | unauthorized
  | exn (message : String)
  deriving Repr, DecidableEq

/-- The external collaborators of the handlers.  `key`/`iv` stand for
`ccs.AES_ENC_KEY` / `ccs.AES_ENC_IV`: the module `config_core_secrets` is not
part of the reviewed sources, so — modelled from the spec: a fixed symmetric
key/IV pair, 256-bit key and 128-bit initialization vector — they are carried
as environment constants, constrained only by the length assertions the code
itself performs.  `aesBlock` is the AES-256 single-block encryption under
`key`, supplied by the external `cryptography` library. -/
structure Env where
  providerType : String
  getUser : String → Option User
  validateLogin : String → String → Bool
  isNewCredential : String → Bool
  httpResult : HttpResult
  httpErrorBody : String
  key : List Nat
  iv : List Nat
  aesBlock : List Nat → List Nat

/-- UTF-8 bytes of a string, as naturals. -/
def utf8Bytes (s : String) : List Nat :=
  s.toUTF8.toList.map (fun b => b.toNat)

/-- PKCS7 padding to the AES block size of 16 bytes, as performed by
`padding.PKCS7(128)`. -/
def pkcs7pad (data : List Nat) : List Nat :=
  let padLen := 16 - data.length % 16
  data ++ List.replicate padLen padLen

/-- Pointwise xor of two byte lists (CBC chaining step). -/
def xorBytes : List Nat → List Nat → List Nat
  | [], _ => []
  | _ :: _, [] => []
  | a :: as, b :: bs => (a ^^^ b) :: xorBytes as bs

/-- CBC-mode chaining: each 16-byte block is xored with the previous
ciphertext block (initially the IV) and passed through the block cipher. -/
def cbcEncryptGo (block : List Nat → List Nat) : List Nat → List Nat → List Nat
  | _, [] => []
  | prev, x :: xs =>
    let c := block (xorBytes ((x :: xs).take 16) prev)
    c ++ cbcEncryptGo block c ((x :: xs).drop 16)
termination_by _ l => l.length
decreasing_by simp [List.length_drop]; omega

/-- AES-CBC encryption of `data` under block cipher `block` with IV `iv`. -/
def cbcEncrypt (block : List Nat → List Nat) (iv : List Nat) (data : List Nat) : List Nat :=
  cbcEncryptGo block iv data

/-- The standard base64 alphabet. -/
def b64Alphabet : List Char :=
  "ABCDEFGHIJKLMNOPQRSTUVWXYZabcdefghijklmnopqrstuvwxyz0123456789+/".toList

/-- The base64 digit for a 6-bit value. -/
def b64Char (n : Nat) : Char := b64Alphabet.getD n 'A'

/-- Standard base64 encoding of a byte list, with `=` padding, as performed by
`base64.b64encode`. -/
def base64Encode : List Nat → String
  | [] => ""
  | [a] =>
    String.mk [b64Char (a / 4), b64Char (a % 4 * 16), '=', '=']
  | [a, b] =>
    String.mk [b64Char (a / 4), b64Char (a % 4 * 16 + b / 16), b64Char (b % 16 * 4), '=']
  | a :: b :: c :: rest =>
    String.mk [b64Char (a / 4), b64Char (a % 4 * 16 + b / 16),
      b64Char (b % 16 * 4 + c / 64), b64Char (c % 64)] ++ base64Encode rest

/-- The fixed URL the sync side channel posts to. -/
def firebaseUrl : String := "https://updateuserpassword-jrskleaqea-uc.a.run.app"

/-- Embedding of `sync_password_with_firebase`.  Returns the effect list on a
completed run, or the message of the exception that escapes (a failed length
assertion, or a transport error raised by the HTTP client). -/
def sync_password_with_firebase (env : Env)
    (email current_password new_password : String) : Except String (List Event) :=
  if env.key.length ≠ 32 then
    .error "Key must be 32 bytes for AES-256."
  else if env.iv.length ≠ 16 then
    .error "IV must be 16 bytes for AES-CBC."
  else
    let data := utf8Bytes new_password
    let padded_data := pkcs7pad data
    let encrypted_data := cbcEncrypt env.aesBlock env.iv padded_data
    let encrypted_base64 := base64Encode encrypted_data
    let payload : SyncPayload :=
      { email := email, currentPassword := current_password, newPassword := encrypted_base64 }
    match env.httpResult with
    | .transportError => .error "transport error"
    | .status code =>
      if code ≠ 200 then
        .ok [Event.syncPost firebaseUrl payload,
          Event.log ("Failed to sync password with Firebase: " ++ env.httpErrorBody)]
      else
        .ok [Event.syncPost firebaseUrl payload,
          Event.log "Password synced with Firebase successfully."]

/-- The credential-lookup loop shared by the three password/username change
handlers: first credential whose `auth_provider_type` equals the local
provider's type. -/
def findLocalCredential (providerType : String) (credentials : List Credential) :
    Option Credential :=
  credentials.find? (fun c => c.auth_provider_type == providerType)

/-- The username of the first local-provider credential, if any. -/
def findLocalUsername (providerType : String) (credentials : List Credential) :
    Option String :=
  (findLocalCredential providerType credentials).map (fun c => c.username)

/-- Embedding of `websocket_create` (admin required; the caller is not used by
the handler body). -/
def websocket_create (env : Env) (user_id username password : String) :
    Outcome × List Event :=
  match env.getUser user_id with
  | none => (Outcome.error "not_found" "User not found", [])
  | some user =>
    if user.system_generated then
      (Outcome.error "system_generated"
        "Cannot add credentials to a system generated user.", [])
    else
      (Outcome.result,
        [Event.addAuth username password,
          Event.getOrCreateCredentials username,
          Event.linkUser username])

/-- Embedding of `websocket_delete` (admin required).  `env.isNewCredential`
is the `is_new` flag of the credential returned by
`async_get_or_create_credentials` for the given username. -/
def websocket_delete (env : Env) (username : String) : Outcome × List Event :=
  if !env.isNewCredential username then
    (Outcome.result,
      [Event.getOrCreateCredentials username, Event.removeCredentials username])
  else
    (Outcome.result,
      [Event.getOrCreateCredentials username, Event.removeAuth username])

/-- Embedding of `websocket_change_password`.  `connUser` is
`connection.user` (checked against `None` by the handler). -/
def websocket_change_password (env : Env) (connUser : Option User)
    (current_password new_password : String) : Outcome × List Event :=
  match connUser with
  | none => (Outcome.error "user_not_found" "User not found", [])
  | some user =>
    if new_password.length < 6 then
      (Outcome.error "invalid_password" "Password should be at least 6 characters", [])
    else
      match findLocalUsername env.providerType user.credentials with
      | none => (Outcome.error "credentials_not_found" "Credentials not found", [])
      | some username =>
        if !env.validateLogin username current_password then
          (Outcome.error "invalid_current_password" "Invalid current password", [])
        else
          match sync_password_with_firebase env username current_password new_password with
          | .error e => (Outcome.exn e, [Event.changePassword username new_password])
          | .ok evs => (Outcome.result, Event.changePassword username new_password :: evs)

/-- Embedding of `websocket_admin_change_password` (admin required; `caller`
is `connection.user`, non-null for an admin-gated command). -/
def websocket_admin_change_password (env : Env) (caller : User)
    (user_id password : String) : Outcome × List Event :=
  if !caller.is_owner then
    (Outcome.unauthorized, [])
  else
    match env.getUser user_id with
    | none => (Outcome.error "user_not_found" "User not found", [])
    | some user =>
      match findLocalUsername env.providerType user.credentials with
      | none => (Outcome.error "credentials_not_found" "Credentials not found", [])
      | some username =>
        (Outcome.result, [Event.changePassword username password])

/-- Embedding of `websocket_admin_change_username` (admin required). -/
def websocket_admin_change_username (env : Env) (caller : User)
    (user_id new_username : String) : Outcome × List Event :=
  if !caller.is_owner then
    (Outcome.unauthorized, [])
  else
    match env.getUser user_id with
    | none => (Outcome.error "user_not_found" "User not found", [])
    | some user =>
      match findLocalCredential env.providerType user.credentials with
      | none => (Outcome.error "credentials_not_found" "Credentials not found", [])
      | some cred =>
        (Outcome.result, [Event.changeUsername cred.username new_username])

/-- Whether an event is an invocation of the sync side channel. -/
def Event.isSync : Event → Bool
  | Event.syncPost _ _ => true
  | _ => false

/-- The payload the spec says the sync side channel posts: the caller's
local-provider username as `email`, the plaintext current password, and the
new password PKCS7-padded, AES-256-CBC encrypted and base64-encoded. -/
def specSyncPayload (env : Env) (username current_password new_password : String) :
    SyncPayload :=
  { email := username
    currentPassword := current_password
    newPassword := base64Encode (cbcEncrypt env.aesBlock env.iv (pkcs7pad (utf8Bytes new_password))) }

/-! ### Concrete fixtures used to instantiate universally quantified theorems -/

/-- A concrete local-provider credential for the user `alice`. -/
def credAlice : Credential := { auth_provider_type := "homeassistant", username := "alice" }

/-- A concrete credential of a different provider type. -/
def credOther : Credential := { auth_provider_type := "trusted_networks", username := "x" }

/-- A concrete non-owner admin user holding one local credential. -/
def user0 : User :=
  { is_owner := false, is_admin := true, system_generated := false,
    credentials := [credAlice] }

/-- A concrete environment: every login validates, the sync endpoint answers
with HTTP 200, the secrets have the asserted lengths, and the block cipher is
the identity on a block. -/
def env0 : Env :=
  { providerType := "homeassistant"
    getUser := fun _ => none
    validateLogin := fun _ _ => true
    isNewCredential := fun _ => false
    httpResult := HttpResult.status 200
    httpErrorBody := ""
    key := List.replicate 32 0
    iv := List.replicate 16 0
    aesBlock := fun b => b }

/-- A second local-provider credential, for the username `bob`. -/
def credBob : Credential := { credAlice with username := "bob" }

/-- `user0` with a non-matching credential before `credAlice` and a second
matching credential after it. -/
def userBoth : User := { user0 with credentials := [credOther, credAlice, credBob] }

/-- `env0` with a user store resolving every id to `user0`. -/
def envGetUser0 : Env := { env0 with getUser := fun _ => some user0 }

/-- `env0` with a user store resolving every id to `userBoth`. -/
def envGetBoth : Env := { env0 with getUser := fun _ => some userBoth }

/-- Evaluation of the sync side channel when the length assertions hold and
the HTTP post completes with some status code. -/
theorem sync_completes (env : Env) (email current_password new_password : String)
    (hkey : env.key.length = 32) (hiv : env.iv.length = 16)
    (code : Nat) (hhttp : env.httpResult = HttpResult.status code) :
    sync_password_with_firebase env email current_password new_password =
      .ok [Event.syncPost firebaseUrl (specSyncPayload env email current_password new_password),
        Event.log (if code ≠ 200 then
            "Failed to sync password with Firebase: " ++ env.httpErrorBody
          else
            "Password synced with Firebase successfully.")] := by
  unfold sync_password_with_firebase specSyncPayload
  simp only [hkey, hiv, hhttp]
  norm_num
  split <;> simp

/-! ### Claim theorems -/

/-- C3 as stated is false: with a `current_password` that does not validate
and a `new_password` of length less than 6, `change_password` fails with
`invalid_password`, not `invalid_current_password`, because the length check
precedes the current-password validation. -/
theorem change_password_wrong_current_password_counterexample :
    ({ env0 with validateLogin := fun _ _ => false } : Env).validateLogin
        "alice" "wrongpw" = false ∧
    websocket_change_password { env0 with validateLogin := fun _ _ => false }
        (some user0) "wrongpw" "abc" =
      (Outcome.error "invalid_password" "Password should be at least 6 characters", []) ∧
    (websocket_change_password { env0 with validateLogin := fun _ _ => false }
        (some user0) "wrongpw" "abc").fst ≠
      Outcome.error "invalid_current_password" "Invalid current password" :=
  ⟨rfl, rfl, by decide⟩

/-- C3 (amended): for every authenticated caller with a local-provider
credential, `change_password` invoked with a `new_password` that passes the
length check and a `current_password` that does not validate against the
stored credential fails with error code `invalid_current_password` and
performs no store mutation. -/
theorem change_password_wrong_current_password (env : Env) (user : User)
    (current_password new_password username : String)
    (hlen : ¬ new_password.length < 6)
    (hfind : findLocalUsername env.providerType user.credentials = some username)
    (hval : env.validateLogin username current_password = false) :
    websocket_change_password env (some user) current_password new_password =
      (Outcome.error "invalid_current_password" "Invalid current password", []) := by
  unfold websocket_change_password
  simp [hlen, hfind, hval]

/-- Instantiation of `change_password_wrong_current_password` at concrete
inputs. -/
theorem change_password_wrong_current_password_witness :
    websocket_change_password { env0 with validateLogin := fun _ _ => false }
        (some user0) "wrongpw" "newpass123" =
      (Outcome.error "invalid_current_password" "Invalid current password", []) :=
  change_password_wrong_current_password _ user0 "wrongpw" "newpass123" "alice"
    (by decide) rfl rfl

/-- C4 as stated is false: with no authenticated caller and a short
`new_password`, `change_password` fails with `user_not_found`, not
`invalid_password`. -/
theorem change_password_short_password_counterexample :
    "abc".length < 6 ∧
    websocket_change_password env0 none "oldpw" "abc" =
      (Outcome.error "user_not_found" "User not found", []) ∧
    (websocket_change_password env0 none "oldpw" "abc").fst ≠
      Outcome.error "invalid_password" "Password should be at least 6 characters" :=
  ⟨by decide, rfl, by decide⟩

/-- C4 (amended): for every `change_password` invocation with an
authenticated caller where `new_password` has length strictly less than 6,
the operation fails with error code `invalid_password` and performs no store
mutation, regardless of the other inputs. -/
theorem change_password_short_password (env : Env) (user : User)
    (current_password new_password : String)
    (hlen : new_password.length < 6) :
    websocket_change_password env (some user) current_password new_password =
      (Outcome.error "invalid_password" "Password should be at least 6 characters", []) := by
  unfold websocket_change_password
  simp [hlen]

/-- Instantiation of `change_password_short_password` at concrete inputs. -/
theorem change_password_short_password_witness :
    websocket_change_password env0 (some user0) "oldpw" "abc" =
      (Outcome.error "invalid_password" "Password should be at least 6 characters", []) :=
  change_password_short_password env0 user0 "oldpw" "abc" (by decide)

/-- C5: for every invocation of `admin_change_password` or
`admin_change_username` whose caller is an admin but not the instance owner,
the operation fails with `Unauthorized` (and performs no effect), even though
the caller passed the generic admin check. -/
theorem admin_change_nonowner_unauthorized (env : Env) (caller : User)
    (user_id password new_username : String)
    (_hadmin : caller.is_admin = true) (howner : caller.is_owner = false) :
    websocket_admin_change_password env caller user_id password =
      (Outcome.unauthorized, []) ∧
    websocket_admin_change_username env caller user_id new_username =
      (Outcome.unauthorized, []) := by
  unfold websocket_admin_change_password websocket_admin_change_username
  simp [howner]

/-- Instantiation of `admin_change_nonowner_unauthorized` at concrete
inputs: `user0` is an admin but not the owner. -/
theorem admin_change_nonowner_unauthorized_witness :
    websocket_admin_change_password env0 user0 "uid1" "newpass123" =
      (Outcome.unauthorized, []) ∧
    websocket_admin_change_username env0 user0 "uid1" "newname" =
      (Outcome.unauthorized, []) :=
  admin_change_nonowner_unauthorized env0 user0 "uid1" "newpass123" "newname" rfl rfl

/-- C6: for every `create` invocation whose target user resolves and is
system-generated, the operation fails with error code `system_generated`
regardless of the username and password inputs, and no credential is
registered or linked (no effect is performed). -/
theorem create_system_generated_rejected (env : Env)
    (user_id username password : String) (u : User)
    (hget : env.getUser user_id = some u)
    (hsys : u.system_generated = true) :
    websocket_create env user_id username password =
      (Outcome.error "system_generated"
        "Cannot add credentials to a system generated user.", []) := by
  unfold websocket_create
  simp [hget, hsys]

/-- Instantiation of `create_system_generated_rejected` at concrete inputs. -/
theorem create_system_generated_rejected_witness :
    websocket_create
        { env0 with
          getUser := fun _ => some { user0 with system_generated := true } }
        "uid1" "alice" "newpass123" =
      (Outcome.error "system_generated"
        "Cannot add credentials to a system generated user.", []) :=
  create_system_generated_rejected _ "uid1" "alice" "newpass123"
    { user0 with system_generated := true } rfl rfl

/-- C9: for every username, `delete` returns success: if a credential for
that username already existed (`is_new` false) it removes the credential from
the store, otherwise it removes the bare username registration from the
provider; no username-not-found error is ever returned. -/
theorem delete_always_succeeds (env : Env) (username : String) :
    (websocket_delete env username).fst = Outcome.result ∧
    (websocket_delete env username).snd =
      (if env.isNewCredential username then
        [Event.getOrCreateCredentials username, Event.removeAuth username]
      else
        [Event.getOrCreateCredentials username, Event.removeCredentials username]) := by
  unfold websocket_delete
  cases h : env.isNewCredential username <;> simp [h]

/-- C1 as stated is false: a transport error of the sync side channel, after
the store password update has committed, escapes the handler as an exception
instead of being logged, so the operation does not return success. -/
theorem sync_transport_error_counterexample :
    websocket_change_password { env0 with httpResult := HttpResult.transportError }
        (some user0) "oldpw" "newpass123" =
      (Outcome.exn "transport error", [Event.changePassword "alice" "newpass123"]) ∧
    (websocket_change_password { env0 with httpResult := HttpResult.transportError }
        (some user0) "oldpw" "newpass123").fst ≠ Outcome.result :=
  ⟨rfl, by decide⟩

/-- C1 (amended): for every invocation of `change_password` that passes
validation and commits the store password update, a non-200 HTTP status of
the external sync side channel is logged and never surfaced to the caller:
the operation still returns success.  (A transport error of the HTTP client,
by contrast, escapes the handler uncaught.) -/
theorem sync_http_failure_logged_not_surfaced (env : Env) (user : User)
    (current_password new_password username : String)
    (hlen : ¬ new_password.length < 6)
    (hfind : findLocalUsername env.providerType user.credentials = some username)
    (hval : env.validateLogin username current_password = true)
    (hkey : env.key.length = 32) (hiv : env.iv.length = 16)
    (code : Nat) (hhttp : env.httpResult = HttpResult.status code)
    (hcode : code ≠ 200) :
    (websocket_change_password env (some user) current_password new_password).fst =
      Outcome.result ∧
    Event.changePassword username new_password ∈
      (websocket_change_password env (some user) current_password new_password).snd ∧
    Event.log ("Failed to sync password with Firebase: " ++ env.httpErrorBody) ∈
      (websocket_change_password env (some user) current_password new_password).snd := by
  unfold websocket_change_password
  simp only [hlen, hfind, hval,
    sync_completes env username current_password new_password hkey hiv code hhttp]
  simp [hcode]

/-- Instantiation of `sync_http_failure_logged_not_surfaced` at concrete
inputs (HTTP status 500). -/
theorem sync_http_failure_logged_not_surfaced_witness :
    (websocket_change_password
        { env0 with httpResult := HttpResult.status 500, httpErrorBody := "boom" }
        (some user0) "oldpw" "newpass123").fst = Outcome.result ∧
    Event.changePassword "alice" "newpass123" ∈
      (websocket_change_password
        { env0 with httpResult := HttpResult.status 500, httpErrorBody := "boom" }
        (some user0) "oldpw" "newpass123").snd ∧
    Event.log ("Failed to sync password with Firebase: " ++ "boom") ∈
      (websocket_change_password
        { env0 with httpResult := HttpResult.status 500, httpErrorBody := "boom" }
        (some user0) "oldpw" "newpass123").snd :=
  sync_http_failure_logged_not_surfaced _ user0 "oldpw" "newpass123" "alice"
    (by decide) rfl rfl (by decide) (by decide) 500 rfl (by decide)

/-- C2: for every successful `change_password` invocation, the stored
password is updated in the provider first, and only then is the external
sync side effect invoked, with the caller-supplied old (current) password
and the new password as its arguments. -/
theorem change_password_store_update_precedes_sync (env : Env) (user : User)
    (current_password new_password username : String)
    (hlen : ¬ new_password.length < 6)
    (hfind : findLocalUsername env.providerType user.credentials = some username)
    (hval : env.validateLogin username current_password = true)
    (hkey : env.key.length = 32) (hiv : env.iv.length = 16)
    (code : Nat) (hhttp : env.httpResult = HttpResult.status code) :
    ∃ rest,
      websocket_change_password env (some user) current_password new_password =
        (Outcome.result,
          Event.changePassword username new_password ::
            Event.syncPost firebaseUrl
              (specSyncPayload env username current_password new_password) :: rest) := by
  unfold websocket_change_password
  simp only [hlen, hfind, hval,
    sync_completes env username current_password new_password hkey hiv code hhttp]
  simp

/-- Instantiation of `change_password_store_update_precedes_sync` at
concrete inputs. -/
theorem change_password_store_update_precedes_sync_witness :
    ∃ rest,
      websocket_change_password env0 (some user0) "oldpw" "newpass123" =
        (Outcome.result,
          Event.changePassword "alice" "newpass123" ::
            Event.syncPost firebaseUrl
              (specSyncPayload env0 "alice" "oldpw" "newpass123") :: rest) :=
  change_password_store_update_precedes_sync env0 user0 "oldpw" "newpass123" "alice"
    (by decide) rfl rfl (by decide) (by decide) 200 rfl

/-- C7: for every completed invocation of the sync side channel, the posted
JSON body has exactly the fields `email`, `currentPassword` and
`newPassword`, where `email` is the caller's local-provider username passed
by the handler, `currentPassword` is the plaintext current password, and
`newPassword` is the new password PKCS7-padded, encrypted with AES-256-CBC
under the fixed key and IV, and then base64-encoded. -/
theorem sync_posts_encrypted_payload (env : Env)
    (email current_password new_password : String)
    (hkey : env.key.length = 32) (hiv : env.iv.length = 16)
    (code : Nat) (hhttp : env.httpResult = HttpResult.status code) :
    ∃ logmsg,
      sync_password_with_firebase env email current_password new_password =
        .ok [Event.syncPost firebaseUrl
            { email := email
              currentPassword := current_password
              newPassword := base64Encode
                (cbcEncrypt env.aesBlock env.iv (pkcs7pad (utf8Bytes new_password))) },
          Event.log logmsg] := by
  refine ⟨_, sync_completes env email current_password new_password hkey hiv code hhttp⟩

/-- Instantiation of `sync_posts_encrypted_payload` at concrete inputs. -/
theorem sync_posts_encrypted_payload_witness :
    ∃ logmsg,
      sync_password_with_firebase env0 "alice" "oldpw" "newpass123" =
        .ok [Event.syncPost firebaseUrl
            { email := "alice"
              currentPassword := "oldpw"
              newPassword := base64Encode
                (cbcEncrypt env0.aesBlock env0.iv (pkcs7pad (utf8Bytes "newpass123"))) },
          Event.log logmsg] :=
  sync_posts_encrypted_payload env0 "alice" "oldpw" "newpass123"
    (by decide) (by decide) 200 rfl

/-- C8: the external sync side channel is invoked only by the self-service
`change_password` operation: none of `create`, `delete`,
`admin_change_password` or `admin_change_username` ever performs a sync post,
for any environment and any inputs. -/
theorem sync_only_from_change_password (env : Env) (caller : User)
    (user_id username password new_username : String) :
    (websocket_create env user_id username password).snd.all
      (fun e => !e.isSync) = true ∧
    (websocket_delete env username).snd.all (fun e => !e.isSync) = true ∧
    (websocket_admin_change_password env caller user_id password).snd.all
      (fun e => !e.isSync) = true ∧
    (websocket_admin_change_username env caller user_id new_username).snd.all
      (fun e => !e.isSync) = true := by
  refine ⟨?_, ?_, ?_, ?_⟩
  · unfold websocket_create
    cases env.getUser user_id with
    | none => simp [Event.isSync]
    | some u => cases hu : u.system_generated <;> simp [hu, Event.isSync]
  · unfold websocket_delete
    cases h : env.isNewCredential username <;> simp [h, Event.isSync]
  · unfold websocket_admin_change_password
    cases ho : caller.is_owner
    · simp [ho]
    · cases env.getUser user_id with
      | none => simp [ho, Event.isSync]
      | some u =>
        cases hf : findLocalUsername env.providerType u.credentials <;>
          simp [ho, hf, Event.isSync]
  · unfold websocket_admin_change_username
    cases ho : caller.is_owner
    · simp [ho]
    · cases env.getUser user_id with
      | none => simp [ho, Event.isSync]
      | some u =>
        cases hf : findLocalCredential env.providerType u.credentials <;>
          simp [ho, hf, Event.isSync]

/-- C10: in each of `change_password`, `admin_change_password` and
`admin_change_username`, the target credential is located by scanning the
user's credential list in order and taking the first credential whose
`auth_provider_type` equals the local provider's type; credentials of other
provider types, and any later matching credential, never influence these
operations: two credential lists with the same first matching credential
yield identical outcomes and effects. -/
theorem first_local_credential_determines_behavior :
    (∀ (pt : String) (pre : List Credential) (c : Credential) (post : List Credential),
      (∀ c2 ∈ pre, c2.auth_provider_type ≠ pt) → c.auth_provider_type = pt →
      findLocalCredential pt (pre ++ c :: post) = some c) ∧
    (∀ (env : Env) (o a s : Bool) (cs1 cs2 : List Credential)
        (current_password new_password : String),
      findLocalCredential env.providerType cs1 = findLocalCredential env.providerType cs2 →
      websocket_change_password env
          (some { is_owner := o, is_admin := a, system_generated := s, credentials := cs1 })
          current_password new_password =
        websocket_change_password env
          (some { is_owner := o, is_admin := a, system_generated := s, credentials := cs2 })
          current_password new_password) ∧
    (∀ (env1 env2 : Env) (caller : User) (user_id password : String) (u1 u2 : User),
      env1.getUser user_id = some u1 → env2.getUser user_id = some u2 →
      findLocalCredential env1.providerType u1.credentials =
        findLocalCredential env2.providerType u2.credentials →
      websocket_admin_change_password env1 caller user_id password =
        websocket_admin_change_password env2 caller user_id password) ∧
    (∀ (env1 env2 : Env) (caller : User) (user_id new_username : String) (u1 u2 : User),
      env1.getUser user_id = some u1 → env2.getUser user_id = some u2 →
      findLocalCredential env1.providerType u1.credentials =
        findLocalCredential env2.providerType u2.credentials →
      websocket_admin_change_username env1 caller user_id new_username =
        websocket_admin_change_username env2 caller user_id new_username) := by
  refine ⟨?_, ?_, ?_, ?_⟩
  · intro pt pre c post hpre hc
    induction pre with
    | nil => simp [findLocalCredential, List.find?_cons_of_pos, hc]
    | cons c2 cs ih =>
      have h2 : (c2.auth_provider_type == pt) = false := by
        simp [hpre c2 (by simp)]
      have hcs : ∀ c3 ∈ cs, c3.auth_provider_type ≠ pt := by
        intro c3 h3
        exact hpre c3 (by simp [h3])
      simpa [findLocalCredential, List.find?_cons, h2] using ih hcs
  · intro env o a s cs1 cs2 current_password new_password h
    unfold websocket_change_password findLocalUsername
    simp only []
    rw [h]
  · intro env1 env2 caller user_id password u1 u2 h1 h2 h
    unfold websocket_admin_change_password findLocalUsername
    simp only [h1, h2]
    rw [h]
  · intro env1 env2 caller user_id new_username u1 u2 h1 h2 h
    unfold websocket_admin_change_username
    simp only [h1, h2]
    rw [h]

/-- Instantiation of `first_local_credential_determines_behavior` at concrete
inputs: a non-matching credential before the match, and an extra matching
credential after it. -/
theorem first_local_credential_determines_behavior_witness :
    findLocalCredential "homeassistant" ([credOther] ++ credAlice :: [credBob]) =
      some credAlice ∧
    websocket_change_password env0
        (some { is_owner := false, is_admin := true, system_generated := false,
                credentials := [credAlice] }) "oldpw" "newpass123" =
      websocket_change_password env0
        (some { is_owner := false, is_admin := true, system_generated := false,
                credentials := [credOther, credAlice, credBob] }) "oldpw" "newpass123" ∧
    websocket_admin_change_password envGetUser0 user0 "uid1" "newpass123" =
      websocket_admin_change_password envGetBoth user0 "uid1" "newpass123" ∧
    websocket_admin_change_username envGetUser0 user0 "uid1" "newname" =
      websocket_admin_change_username envGetBoth user0 "uid1" "newname" :=
  ⟨first_local_credential_determines_behavior.1 "homeassistant" [credOther] credAlice
      [credBob] (by decide) rfl,
    first_local_credential_determines_behavior.2.1 env0 false true false [credAlice]
      [credOther, credAlice, credBob] "oldpw" "newpass123" (by decide),
    first_local_credential_determines_behavior.2.2.1 envGetUser0 envGetBoth user0
      "uid1" "newpass123" user0 userBoth rfl rfl (by decide),
    first_local_credential_determines_behavior.2.2.2 envGetUser0 envGetBoth user0
      "uid1" "newname" user0 userBoth rfl rfl (by decide)⟩

end AuthProviderHA
